import Mathlib

/-!
Verification of the `%%mypyc` cell-magic cache (mypyc_ipython/_magic.py).

The development shallowly embeds `MypycMagics.mypyc`, `_mypycify`,
`_build_extension` and `_import_all`.  External collaborators (the mypyc
compiler `mypycify`, the distutils build driver, the extension loader and
the wall clock) are black boxes per the design document, so their responses
for one invocation are inputs of the model (`World`).  The filesystem is
modelled as the set of file paths present, the IPython user namespace and
module dictionaries as association lists in insertion order.
-/

/-- Python values stored in a module dictionary or pushed into the user
namespace.  `strList` is the shape an `__all__` export list must have to be
iterated; other values are opaque. -/
inductive PyVal where
  | strList : List String → PyVal
  | intVal : Int → PyVal
  | obj : String → PyVal
deriving DecidableEq

/-- Python exceptions relevant to `_magic.py`.  `importError` stands for a
failure of `importlib._bootstrap._load`; `assertionError` for the
`assert len(extensions) == 1`; `attributeError`/`nameError` carry their
message. -/
inductive PyError where
  | assertionError
  | importError
  | attributeError : String → PyError
  | nameError : String → PyError
deriving DecidableEq

/-- Result of one `%%mypyc` invocation.  `compileFailed` and `buildFailed`
are the `return None` sentinels after mypyc resp. distutils already printed
the error; `raised e` is an uncaught exception; `done` is a completed
pipeline. -/
inductive Outcome where
  | done
  | compileFailed
  | buildFailed
  | raised : PyError → Outcome
deriving DecidableEq

/-- Observable external actions of one invocation, in program order. -/
inductive Event where
  | writeSource : String → Event
  | mypycify : String → Event
  | buildExt : Bool → Event
  | load : String → Event
  | push : String → Event
deriving DecidableEq

/-- `d[k]` lookup in a Python dict modelled as an insertion-ordered
association list. -/
def lookupD (d : List (String × PyVal)) (k : String) : Option PyVal :=
  match d with
  | [] => none
  | (k2, v) :: rest => if k2 = k then some v else lookupD rest k

/-- The keys of a dict, in iteration order. -/
def dictKeys (d : List (String × PyVal)) : List String :=
  d.map Prod.fst

/-- `self.shell.push({k: v})`: bind `k` to `v` in the user namespace,
silently overwriting an existing binding. -/
def envPush (env : List (String × PyVal)) (k : String) (v : PyVal) :
    List (String × PyVal) :=
  if k ∈ dictKeys env then
    env.map (fun p => if p.1 = k then (p.1, v) else p)
  else env ++ [(k, v)]

/-- `str.startswith("_")` for the one-character underscore case. -/
def startsWithUnderscore (s : String) : Bool :=
  match s.data with
  | [] => false
  | c :: _ => c == '_'

/-- Message of the error `_import_all` raises for a missing attribute:
`"'module' object has no attribute '%s'" % k`. -/
def attrMsg (k : String) : String :=
  "\x27module\x27 object has no attribute \x27" ++ k ++ "\x27"

/-- The loop of `_import_all`: push each selected key in order; a key
absent from the module dict raises `AttributeError` (the `KeyError` from
`mdict[k]` is caught and re-raised), aborting the remaining pushes.
Returns the new namespace, the list of names actually pushed, and the
error if any. -/
def pushKeys (mdict : List (String × PyVal)) (keys : List String)
    (env : List (String × PyVal)) :
    List (String × PyVal) × List String × Option PyError :=
  match keys with
  | [] => (env, [], none)
  | k :: rest =>
    match lookupD mdict k with
    | some v =>
      let r := pushKeys mdict rest (envPush env k v)
      (r.1, k :: r.2.1, r.2.2)
    | none => (env, [], some (PyError.attributeError (attrMsg k)))

/-- Key selection of `_import_all`: the explicit `__all__` list when the
module defines one, otherwise every key not starting with an underscore.
(An `__all__` bound to a non-list would fail iteration in Python and is
not modelled.) -/
def exportKeys (mdict : List (String × PyVal)) : List String :=
  if "__all__" ∈ dictKeys mdict then
    match lookupD mdict "__all__" with
    | some (PyVal.strList ks) => ks
    | _ => []
  else (dictKeys mdict).filter (fun k => !startsWithUnderscore k)

/-- `MypycMagics._import_all`. -/
def importAll (mdict : List (String × PyVal)) (env : List (String × PyVal)) :
    List (String × PyVal) × List String × Option PyError :=
  pushKeys mdict (exportKeys mdict) env

/-! ### SHA-1 (hashlib.sha1 over the UTF-8 encoded key string)

All arithmetic is on `Nat` reduced modulo `2 ^ 32`; recursion is structural
(fuel-based where needed) so every definition evaluates by kernel
reduction. -/

/-- Truncate to a 32-bit word. -/
def w32 (n : Nat) : Nat := n % 4294967296

/-- 32-bit left rotation by `b` of a word `n`. -/
def rotl (b n : Nat) : Nat :=
  (n % 4294967296) * 2 ^ b % 4294967296 + n % 4294967296 / 2 ^ (32 - b)

/-- 32-bit bitwise complement. -/
def not32 (n : Nat) : Nat := 4294967295 - n % 4294967296

/-- SHA-1 round function for round `i`. -/
def sha1F (i b c d : Nat) : Nat :=
  if i < 20 then (b &&& c) ||| (not32 b &&& d)
  else if i < 40 then (b ^^^ c) ^^^ d
  else if i < 60 then ((b &&& c) ||| (b &&& d)) ||| (c &&& d)
  else (b ^^^ c) ^^^ d

/-- SHA-1 round constant for round `i`. -/
def sha1K (i : Nat) : Nat :=
  if i < 20 then 1518500249
  else if i < 40 then 1859775393
  else if i < 60 then 2400959708
  else 3395469782

/-- The five 32-bit working registers of SHA-1. -/
structure Sha1State where
  a : Nat
  b : Nat
  c : Nat
  d : Nat
  e : Nat
deriving DecidableEq

/-- One SHA-1 round with schedule word `w`. -/
def sha1Round (st : Sha1State) (i w : Nat) : Sha1State :=
  { a := w32 (rotl 5 st.a + sha1F i st.b st.c st.d + st.e + sha1K i + w)
    b := st.a
    c := rotl 30 st.b
    d := st.c
    e := st.d }

/-- Run the rounds for schedule words `ws` starting at round index `i`. -/
def sha1Rounds (st : Sha1State) (i : Nat) (ws : List Nat) : Sha1State :=
  match ws with
  | [] => st
  | w :: rest => sha1Rounds (sha1Round st i w) (i + 1) rest

/-- Extend a 16-word block to the 80-word message schedule; `count` more
words remain to be appended. -/
def buildW (acc : List Nat) (count : Nat) : List Nat :=
  match count with
  | 0 => acc
  | n + 1 =>
    let i := acc.length
    buildW
      (acc ++ [rotl 1 ((((acc.getD (i - 3) 0) ^^^ (acc.getD (i - 8) 0)) ^^^
        (acc.getD (i - 14) 0)) ^^^ (acc.getD (i - 16) 0))]) n

/-- Big-endian bytes of width `w` for `n`. -/
def beBytes : Nat → Nat → List Nat
  | 0, _ => []
  | w + 1, n => beBytes w (n / 256) ++ [n % 256]

/-- Group bytes into big-endian 32-bit words. -/
def toWords : List Nat → List Nat
  | b0 :: b1 :: b2 :: b3 :: rest =>
    (((b0 * 256 + b1) * 256 + b2) * 256 + b3) :: toWords rest
  | _ => []

/-- Compress one 64-byte block into the chaining state. -/
def sha1Block (h : Sha1State) (block : List Nat) : Sha1State :=
  let st := sha1Rounds h 0 (buildW (toWords block) 64)
  { a := w32 (h.a + st.a)
    b := w32 (h.b + st.b)
    c := w32 (h.c + st.c)
    d := w32 (h.d + st.d)
    e := w32 (h.e + st.e) }

/-- SHA-1 padding: append `0x80`, zeros to 56 mod 64, then the 8-byte
big-endian bit length. -/
def sha1Pad (msg : List Nat) : List Nat :=
  let len := msg.length
  let zeros := (119 - len % 64) % 64
  msg ++ 128 :: List.replicate zeros 0 ++ beBytes 8 (len * 8)

/-- Split into 64-byte blocks (structural via a fuel argument). -/
def toBlocksFuel (fuel : Nat) (l : List Nat) : List (List Nat) :=
  match fuel with
  | 0 => []
  | f + 1 =>
    match l with
    | [] => []
    | _ => l.take 64 :: toBlocksFuel f (l.drop 64)

/-- Split a padded message into its 64-byte blocks. -/
def toBlocks (l : List Nat) : List (List Nat) :=
  toBlocksFuel l.length l

/-- The SHA-1 initial chaining state. -/
def sha1Init : Sha1State :=
  { a := 1732584193, b := 4023233417, c := 2562383102
    d := 271733878, e := 3285377520 }

/-- SHA-1 digest (20 bytes) of a byte sequence. -/
def sha1 (msg : List Nat) : List Nat :=
  let h := (toBlocks (sha1Pad msg)).foldl sha1Block sha1Init
  beBytes 4 h.a ++ beBytes 4 h.b ++ beBytes 4 h.c ++ beBytes 4 h.d ++
    beBytes 4 h.e

/-- Lower-case hex character for a nibble. -/
def hexChar (n : Nat) : Char :=
  if n < 10 then Char.ofNat (48 + n) else Char.ofNat (87 + n)

/-- Lower-case hex string of a byte list (`.hexdigest()`). -/
def hexOfBytes (bs : List Nat) : String :=
  String.mk (bs.foldr (fun b acc => hexChar (b / 16) :: hexChar (b % 16) :: acc) [])

/-- UTF-8 encoding of one character. -/
def utf8EncodeChar (c : Char) : List Nat :=
  let n := c.toNat
  if n < 128 then [n]
  else if n < 2048 then [192 + n / 64, 128 + n % 64]
  else if n < 65536 then [224 + n / 4096, 128 + n / 64 % 64, 128 + n % 64]
  else [240 + n / 262144, 128 + n / 4096 % 64, 128 + n / 64 % 64, 128 + n % 64]

/-- `str.encode("utf-8")`. -/
def utf8Encode (s : String) : List Nat :=
  s.data.foldr (fun c acc => utf8EncodeChar c ++ acc) []

/-- `hashlib.sha1(s.encode("utf-8")).hexdigest()`. -/
def sha1Hex (s : String) : String :=
  hexOfBytes (sha1 (utf8Encode s))

/-! ### Build key and canonical paths (lines 90-106 of `_magic.py`) -/

/-- `code = cell if cell.endswith("\n") else cell + "\n"`: the test whether
the cell already ends in the newline terminator. -/
def endsWithNewline (s : String) : Bool :=
  s.data.getLast? == some '\n'

/-- Trailing-newline normalization applied to the cell before keying. -/
def normalizeCell (cell : String) : String :=
  if endsWithNewline cell then cell else cell ++ "\n"

/-- The tuple `key = (code, line, sys.version_info, sys.executable,
mypy_version)` optionally extended by `(time.time(),)` under `--force`.
`versionInfo` holds the printed form of `sys.version_info`; the clock
reading is modelled integrally (see `World.now`). -/
structure BuildKey where
  code : String
  line : String
  versionInfo : String
  executable : String
  mypyVersion : String
  salt : Option Nat
deriving DecidableEq

/-- Python `repr` of a string: single-quoted with standard escapes.
(Python's preference for double quotes when the text itself contains a
single quote is not modelled; it only perturbs the opaque hash input.) -/
def pyEscapeChar (c : Char) : List Char :=
  if c = '\\' then ['\\', '\\']
  else if c = Char.ofNat 39 then ['\\', Char.ofNat 39]
  else if c = '\n' then ['\\', 'n']
  else if c = '\r' then ['\\', 'r']
  else if c = '\t' then ['\\', 't']
  else [c]

/-- Single-quoted Python string repr. -/
def pyStrRepr (s : String) : String :=
  String.mk (Char.ofNat 39 ::
    s.data.foldr (fun c acc => pyEscapeChar c ++ acc) [Char.ofNat 39])

/-- Printed form of the `time.time()` reading inside `str(key)`; the float
reading is abstracted to an integral clock. -/
def pyFloatRepr (t : Nat) : String :=
  Nat.repr t ++ ".0"

/-- `str(key)`: the printed tuple fed to `hashlib.sha1`.  `versionInfo` is
a named tuple and prints unquoted. -/
def keyStr (k : BuildKey) : String :=
  "(" ++ pyStrRepr k.code ++ ", " ++ pyStrRepr k.line ++ ", " ++
    k.versionInfo ++ ", " ++ pyStrRepr k.executable ++ ", " ++
    pyStrRepr k.mypyVersion ++
    (match k.salt with
     | none => ""
     | some t => ", " ++ pyFloatRepr t) ++ ")"

/-- `module_name = "_mypyc_magic_" + hashlib.sha1(str(key).encode("utf-8")).hexdigest()`. -/
def moduleNameOf (k : BuildKey) : String :=
  "_mypyc_magic_" ++ sha1Hex (keyStr k)

/-- The argument surface and ambient constants of one `%%mypyc` call:
the cell body, the option line (`-f` / `--verbose` already parsed into
`force` and `quiet`), the interpreter identifiers entering the key, the
cache directory `IPYTHONDIR/mypyc`, and the platform extension suffix. -/
structure Invocation where
  cell : String
  line : String
  force : Bool
  quiet : Bool
  versionInfo : String
  executable : String
  mypyVersion : String
  libDir : String
  soExt : String

/-- The black-box collaborators' responses for one invocation: the wall
clock, `mypycify`'s result (`none` means compile failure with the error
already printed), whether `build_ext.run()` raises
`distutils.errors.CompileError`, whether the extension load fails, and the
loaded module's `__dict__`. -/
structure World where
  now : Nat
  compileResult : Option (List String)
  buildFails : Bool
  loadFails : Bool
  moduleDict : List (String × PyVal)

/-- Per-invocation key construction (lines 91-104): normalize the cell,
build the tuple, and append the clock reading iff `--force`. -/
def mkBuildKey (inv : Invocation) (now : Nat) : BuildKey :=
  { code := normalizeCell inv.cell
    line := inv.line
    versionInfo := inv.versionInfo
    executable := inv.executable
    mypyVersion := inv.mypyVersion
    salt := if inv.force then some now else none }

/-- `module_path = os.path.join(lib_dir, module_name + self.so_ext)`. -/
def modulePathOf (inv : Invocation) (k : BuildKey) : String :=
  inv.libDir ++ "/" ++ moduleNameOf k ++ inv.soExt

/-- `py_file = os.path.join(lib_dir, module_name + ".py")`. -/
def pyFileOf (inv : Invocation) (k : BuildKey) : String :=
  inv.libDir ++ "/" ++ moduleNameOf k ++ ".py"

/-! ### The orchestrator state machine (lines 90-132) -/

/-- Mutable session state threaded across invocations: the cache
directory's files, the in-memory `_code_cache`, and the user namespace. -/
structure SessionState where
  fs : List String
  codeCache : List (BuildKey × String)
  env : List (String × PyVal)

/-- State, outcome and observable event trace of one invocation. -/
structure RunResult where
  state : SessionState
  outcome : Outcome
  events : List Event

/-- Add a path to the set of present files (writing an existing file
leaves the set unchanged). -/
def insertFile (fs : List String) (p : String) : List String :=
  if p ∈ fs then fs else fs ++ [p]

/-- `self._code_cache[key] = module_name`. -/
def ccInsert (cc : List (BuildKey × String)) (k : BuildKey) (v : String) :
    List (BuildKey × String) :=
  if k ∈ cc.map Prod.fst then
    cc.map (fun p => if p.1 = k then (p.1, v) else p)
  else cc ++ [(k, v)]

/-- Tail of the pipeline from `_build_extension` onwards as entered on the
cache-hit path, and from the loader onwards on the miss path: load the
artifact (lines 127-131) and run `_import_all` (line 132).  A no-op
`build_ext.run()` with no extension cannot raise, so `buildFails` is not
consulted here; the build-failure branch is in `runMypyc`. -/
def finishLoad (w : World) (st : SessionState) (modPath : String)
    (evs : List Event) : RunResult :=
  let evs1 := evs ++ [Event.load modPath]
  if w.loadFails then
    { state := st, outcome := Outcome.raised PyError.importError, events := evs1 }
  else
    let r := importAll w.moduleDict st.env
    let evs2 := evs1 ++ r.2.1.map Event.push
    match r.2.2 with
    | none =>
      { state := { st with env := r.1 }, outcome := Outcome.done, events := evs2 }
    | some e =>
      { state := { st with env := r.1 }, outcome := Outcome.raised e, events := evs2 }

/-- `MypycMagics.mypyc` (lines 90-132).  On a cache hit
(`os.path.isfile(module_path)`) no source file is written and `mypycify`
is not called, but `_build_extension` still runs with `extension = None`.
On a miss, `_mypycify` writes the `.py` file and invokes the compiler;
`None` aborts with the already-reported sentinel; the
`assert len(extensions) == 1` fails fast on any other count;
`_code_cache` is then updated and the build driver produces the artifact
at the canonical path unless it raises. -/
def runMypyc (inv : Invocation) (w : World) (st : SessionState) : RunResult :=
  let key := mkBuildKey inv w.now
  let modPath := modulePathOf inv key
  if modPath ∈ st.fs then
    finishLoad w st modPath [Event.buildExt false]
  else
    let pyFile := pyFileOf inv key
    let st1 : SessionState := { st with fs := insertFile st.fs pyFile }
    let evs := [Event.writeSource pyFile, Event.mypycify pyFile]
    match w.compileResult with
    | none => { state := st1, outcome := Outcome.compileFailed, events := evs }
    | some exts =>
      if exts.length = 1 then
        let st2 : SessionState :=
          { st1 with codeCache := ccInsert st1.codeCache key (moduleNameOf key) }
        let evs2 := evs ++ [Event.buildExt true]
        if w.buildFails then
          { state := st2, outcome := Outcome.buildFailed, events := evs2 }
        else
          finishLoad w { st2 with fs := insertFile st2.fs modPath } modPath evs2
      else
        { state := st1, outcome := Outcome.raised PyError.assertionError, events := evs }

/-! ### Helper lemmas: strings -/

theorem string_data_append (a b : String) : (a ++ b).data = a.data ++ b.data := by
  cases a
  cases b
  rfl

theorem string_eq_of_data {a b : String} (h : a.data = b.data) : a = b := by
  cases a
  cases b
  exact congrArg String.mk h

theorem string_append_left_cancel {a b c : String} (h : a ++ b = a ++ c) :
    b = c := by
  apply string_eq_of_data
  have hd := congrArg String.data h
  rw [string_data_append, string_data_append] at hd
  exact List.append_cancel_left hd

theorem string_append_right_cancel {a b c : String} (h : a ++ c = b ++ c) :
    a = b := by
  apply string_eq_of_data
  have hd := congrArg String.data h
  rw [string_data_append, string_data_append] at hd
  exact List.append_cancel_right hd

theorem endsWithNewline_append_newline (s : String) :
    endsWithNewline (s ++ "\n") = true := by
  unfold endsWithNewline
  rw [string_data_append]
  simp [show ("\n" : String).data = ['\n'] from rfl]

/-! ### Helper lemmas: dict lookups and the publish loop -/

theorem dictKeys_cons (p : String × PyVal) (rest : List (String × PyVal)) :
    dictKeys (p :: rest) = p.1 :: dictKeys rest := rfl

theorem lookupD_of_mem {d : List (String × PyVal)} {k : String}
    (h : k ∈ dictKeys d) : ∃ v, lookupD d k = some v := by
  induction d with
  | nil => simp [dictKeys] at h
  | cons p rest ih =>
    by_cases hk : p.1 = k
    · exact ⟨p.2, by simp [lookupD, hk]⟩
    · have hmem : k ∈ dictKeys rest := by
        rw [dictKeys_cons] at h
        rcases List.mem_cons.mp h with h1 | h1
        · exact absurd h1.symm hk
        · exact h1
      obtain ⟨v, hv⟩ := ih hmem
      exact ⟨v, by simp [lookupD, hk, hv]⟩

theorem lookupD_of_not_mem {d : List (String × PyVal)} {k : String}
    (h : k ∉ dictKeys d) : lookupD d k = none := by
  induction d with
  | nil => rfl
  | cons p rest ih =>
    rw [dictKeys_cons] at h
    have h1 : ¬p.1 = k := fun hk => h (List.mem_cons.mpr (Or.inl hk.symm))
    have h2 : k ∉ dictKeys rest := fun hk => h (List.mem_cons.mpr (Or.inr hk))
    simp [lookupD, h1, ih h2]

theorem pushKeys_all_present (d : List (String × PyVal)) (ks : List String)
    (env : List (String × PyVal)) (h : ∀ k ∈ ks, k ∈ dictKeys d) :
    (pushKeys d ks env).2.1 = ks ∧ (pushKeys d ks env).2.2 = none := by
  induction ks generalizing env with
  | nil => simp [pushKeys]
  | cons k rest ih =>
    obtain ⟨v, hv⟩ := lookupD_of_mem (h k (by simp))
    have := ih (envPush env k v) (fun x hx => h x (by simp [hx]))
    simp [pushKeys, hv, this]

theorem pushKeys_stops (d : List (String × PyVal)) (pre : List String)
    (m : String) (post : List String) (env : List (String × PyVal))
    (hpre : ∀ k ∈ pre, k ∈ dictKeys d) (hm : m ∉ dictKeys d) :
    (pushKeys d (pre ++ m :: post) env).2.1 = pre ∧
    (pushKeys d (pre ++ m :: post) env).2.2 =
      some (PyError.attributeError (attrMsg m)) := by
  induction pre generalizing env with
  | nil => simp [pushKeys, lookupD_of_not_mem hm]
  | cons k rest ih =>
    obtain ⟨v, hv⟩ := lookupD_of_mem (hpre k (by simp))
    have := ih (envPush env k v) (fun x hx => hpre x (by simp [hx]))
    simp [pushKeys, hv, this]

theorem pushKeys_err_shape (d : List (String × PyVal)) (ks : List String)
    (env : List (String × PyVal)) :
    (pushKeys d ks env).2.2 = none ∨
    ∃ m, (pushKeys d ks env).2.2 = some (PyError.attributeError (attrMsg m)) := by
  induction ks generalizing env with
  | nil => left; rfl
  | cons k rest ih =>
    cases hv : lookupD d k with
    | none => right; exact ⟨k, by simp [pushKeys, hv]⟩
    | some v =>
      rcases ih (envPush env k v) with h | ⟨m, h⟩
      · left; simp [pushKeys, hv, h]
      · right; exact ⟨m, by simp [pushKeys, hv, h]⟩

/-! ### Helper lemmas: filesystem and pipeline tail -/

theorem mem_insertFile_self (fs : List String) (p : String) :
    p ∈ insertFile fs p := by
  unfold insertFile
  by_cases h : p ∈ fs
  · simp [h]
  · simp [h]

theorem mem_insertFile_of_mem {fs : List String} {p : String} (q : String)
    (h : p ∈ fs) : p ∈ insertFile fs q := by
  unfold insertFile
  by_cases hq : q ∈ fs
  · simpa [hq]
  · simp [hq, h]

theorem mem_insertFile_iff {fs : List String} {p q : String} :
    p ∈ insertFile fs q ↔ p ∈ fs ∨ p = q := by
  unfold insertFile
  by_cases hq : q ∈ fs
  · simp only [hq, if_true]
    constructor
    · exact Or.inl
    · rintro (h | rfl) <;> assumption
  · simp [hq]

theorem finishLoad_fs (w : World) (st : SessionState) (p : String)
    (evs : List Event) : (finishLoad w st p evs).state.fs = st.fs := by
  unfold finishLoad
  by_cases hl : w.loadFails = true
  · simp [hl]
  · cases herr : (importAll w.moduleDict st.env).2.2 <;> simp [hl, herr]

theorem finishLoad_codeCache (w : World) (st : SessionState) (p : String)
    (evs : List Event) :
    (finishLoad w st p evs).state.codeCache = st.codeCache := by
  unfold finishLoad
  by_cases hl : w.loadFails = true
  · simp [hl]
  · cases herr : (importAll w.moduleDict st.env).2.2 <;> simp [hl, herr]

theorem finishLoad_events (w : World) (st : SessionState) (p : String)
    (evs : List Event) :
    ∃ tl, (finishLoad w st p evs).events = evs ++ Event.load p :: tl ∧
      ∀ e ∈ tl, ∃ n, e = Event.push n := by
  unfold finishLoad
  by_cases hl : w.loadFails = true
  · exact ⟨[], by simp [hl]⟩
  · cases herr : (importAll w.moduleDict st.env).2.2 with
    | none =>
      refine ⟨(importAll w.moduleDict st.env).2.1.map Event.push, ?_, ?_⟩
      · simp [hl, herr]
      · intro e he
        obtain ⟨n, _, hn⟩ := List.mem_map.mp he
        exact ⟨n, hn.symm⟩
    | some e =>
      refine ⟨(importAll w.moduleDict st.env).2.1.map Event.push, ?_, ?_⟩
      · simp [hl, herr]
      · intro x hx
        obtain ⟨n, _, hn⟩ := List.mem_map.mp hx
        exact ⟨n, hn.symm⟩

theorem finishLoad_outcome_ne_assertion (w : World) (st : SessionState)
    (p : String) (evs : List Event) :
    (finishLoad w st p evs).outcome ≠ Outcome.raised PyError.assertionError := by
  unfold finishLoad
  by_cases hl : w.loadFails = true
  · simp [hl]
  · rcases pushKeys_err_shape w.moduleDict (exportKeys w.moduleDict) st.env with
      herr | ⟨m, herr⟩
    · have herr2 : (importAll w.moduleDict st.env).2.2 = none := herr
      simp [hl, herr2]
    · have herr2 : (importAll w.moduleDict st.env).2.2 =
        some (PyError.attributeError (attrMsg m)) := herr
      simp [hl, herr2]

theorem finishLoad_env_untouched (w : World) (st : SessionState) (p : String)
    (evs : List Event)
    (h : (finishLoad w st p evs).outcome = Outcome.raised PyError.importError ∨
      (finishLoad w st p evs).outcome = Outcome.compileFailed ∨
      (finishLoad w st p evs).outcome = Outcome.buildFailed ∨
      (finishLoad w st p evs).outcome = Outcome.raised PyError.assertionError) :
    (finishLoad w st p evs).state.env = st.env := by
  unfold finishLoad
  unfold finishLoad at h
  by_cases hl : w.loadFails = true
  · simp [hl]
  · rcases pushKeys_err_shape w.moduleDict (exportKeys w.moduleDict) st.env with
      herr | ⟨m, herr⟩
    · have herr2 : (importAll w.moduleDict st.env).2.2 = none := herr
      simp [hl, herr2] at h
    · have herr2 : (importAll w.moduleDict st.env).2.2 =
        some (PyError.attributeError (attrMsg m)) := herr
      simp [hl, herr2] at h

theorem finishLoad_outcome_done (w : World) (st : SessionState) (p : String)
    (evs : List Event) (hl : w.loadFails = false)
    (herr : (importAll w.moduleDict st.env).2.2 = none) :
    (finishLoad w st p evs).outcome = Outcome.done := by
  unfold finishLoad
  simp [hl, herr]

theorem runMypyc_hit (inv : Invocation) (w : World) (st : SessionState)
    (h : modulePathOf inv (mkBuildKey inv w.now) ∈ st.fs) :
    runMypyc inv w st =
      finishLoad w st (modulePathOf inv (mkBuildKey inv w.now))
        [Event.buildExt false] := by
  unfold runMypyc
  rw [if_pos h]

theorem runMypyc_miss_compileFailed (inv : Invocation) (w : World)
    (st : SessionState)
    (h : modulePathOf inv (mkBuildKey inv w.now) ∉ st.fs)
    (hc : w.compileResult = none) :
    runMypyc inv w st =
      { state := { st with
          fs := insertFile st.fs (pyFileOf inv (mkBuildKey inv w.now)) }
        outcome := Outcome.compileFailed
        events := [Event.writeSource (pyFileOf inv (mkBuildKey inv w.now)),
          Event.mypycify (pyFileOf inv (mkBuildKey inv w.now))] } := by
  unfold runMypyc
  rw [if_neg h, hc]

theorem runMypyc_miss_assert (inv : Invocation) (w : World)
    (st : SessionState) (exts : List String)
    (h : modulePathOf inv (mkBuildKey inv w.now) ∉ st.fs)
    (hc : w.compileResult = some exts) (hlen : exts.length ≠ 1) :
    runMypyc inv w st =
      { state := { st with
          fs := insertFile st.fs (pyFileOf inv (mkBuildKey inv w.now)) }
        outcome := Outcome.raised PyError.assertionError
        events := [Event.writeSource (pyFileOf inv (mkBuildKey inv w.now)),
          Event.mypycify (pyFileOf inv (mkBuildKey inv w.now))] } := by
  unfold runMypyc
  rw [if_neg h, hc]
  simp [hlen]

theorem runMypyc_miss_buildFailed (inv : Invocation) (w : World)
    (st : SessionState) (exts : List String)
    (h : modulePathOf inv (mkBuildKey inv w.now) ∉ st.fs)
    (hc : w.compileResult = some exts) (hlen : exts.length = 1)
    (hb : w.buildFails = true) :
    runMypyc inv w st =
      { state :=
          { fs := insertFile st.fs (pyFileOf inv (mkBuildKey inv w.now))
            codeCache := ccInsert st.codeCache (mkBuildKey inv w.now)
              (moduleNameOf (mkBuildKey inv w.now))
            env := st.env }
        outcome := Outcome.buildFailed
        events := [Event.writeSource (pyFileOf inv (mkBuildKey inv w.now)),
          Event.mypycify (pyFileOf inv (mkBuildKey inv w.now)),
          Event.buildExt true] } := by
  unfold runMypyc
  rw [if_neg h, hc]
  simp [hlen, hb]

theorem runMypyc_miss_built (inv : Invocation) (w : World)
    (st : SessionState) (exts : List String)
    (h : modulePathOf inv (mkBuildKey inv w.now) ∉ st.fs)
    (hc : w.compileResult = some exts) (hlen : exts.length = 1)
    (hb : w.buildFails = false) :
    runMypyc inv w st =
      finishLoad w
        { fs := insertFile (insertFile st.fs (pyFileOf inv (mkBuildKey inv w.now)))
            (modulePathOf inv (mkBuildKey inv w.now))
          codeCache := ccInsert st.codeCache (mkBuildKey inv w.now)
            (moduleNameOf (mkBuildKey inv w.now))
          env := st.env }
        (modulePathOf inv (mkBuildKey inv w.now))
        [Event.writeSource (pyFileOf inv (mkBuildKey inv w.now)),
          Event.mypycify (pyFileOf inv (mkBuildKey inv w.now)),
          Event.buildExt true] := by
  unfold runMypyc
  rw [if_neg h, hc]
  simp [hlen, hb]

theorem runMypyc_fs_mono (inv : Invocation) (w : World) (st : SessionState)
    (p : String) (h : p ∈ st.fs) : p ∈ (runMypyc inv w st).state.fs := by
  by_cases hm : modulePathOf inv (mkBuildKey inv w.now) ∈ st.fs
  · rw [runMypyc_hit inv w st hm, finishLoad_fs]
    exact h
  · cases hc : w.compileResult with
    | none =>
      rw [runMypyc_miss_compileFailed inv w st hm hc]
      exact mem_insertFile_of_mem _ h
    | some exts =>
      by_cases hlen : exts.length = 1
      · cases hb : w.buildFails with
        | true =>
          rw [runMypyc_miss_buildFailed inv w st exts hm hc hlen hb]
          exact mem_insertFile_of_mem _ h
        | false =>
          rw [runMypyc_miss_built inv w st exts hm hc hlen hb, finishLoad_fs]
          exact mem_insertFile_of_mem _ (mem_insertFile_of_mem _ h)
      · rw [runMypyc_miss_assert inv w st exts hm hc hlen]
        exact mem_insertFile_of_mem _ h

theorem runMypyc_success_artifact (inv : Invocation) (w : World)
    (st : SessionState) (exts : List String)
    (hc : w.compileResult = some exts) (hlen : exts.length = 1)
    (hb : w.buildFails = false) :
    modulePathOf inv (mkBuildKey inv w.now) ∈ (runMypyc inv w st).state.fs := by
  by_cases hm : modulePathOf inv (mkBuildKey inv w.now) ∈ st.fs
  · rw [runMypyc_hit inv w st hm, finishLoad_fs]
    exact hm
  · rw [runMypyc_miss_built inv w st exts hm hc hlen hb, finishLoad_fs]
    exact mem_insertFile_self _ _

theorem mkBuildKey_force_false (inv : Invocation) (hf : inv.force = false)
    (n1 n2 : Nat) : mkBuildKey inv n1 = mkBuildKey inv n2 := by
  unfold mkBuildKey
  rw [hf]
  simp

theorem mkBuildKey_force_salt (inv : Invocation) (hf : inv.force = true)
    (n : Nat) : (mkBuildKey inv n).salt = some n := by
  unfold mkBuildKey
  rw [hf]
  simp

theorem mem_dictKeys_of_lookupD {d : List (String × PyVal)} {k : String}
    {v : PyVal} (h : lookupD d k = some v) : k ∈ dictKeys d := by
  induction d with
  | nil => simp [lookupD] at h
  | cons p rest ih =>
    rw [dictKeys_cons]
    by_cases hk : p.1 = k
    · exact List.mem_cons.mpr (Or.inl hk.symm)
    · unfold lookupD at h
      rw [if_neg hk] at h
      exact List.mem_cons.mpr (Or.inr (ih h))

/-- Discriminator for the error kind `_import_all` produces. -/
def isNameError : Option PyError → Bool
  | some (PyError.nameError _) => true
  | _ => false

/-! ### Claim theorems -/

/-- Claim C2 (corrected): when a loaded module defines `__all__` and some
listed name `m` is absent from the module dictionary, `_import_all` raises
an `AttributeError` (not a `NameError`) whose message names the missing
symbol; the names listed before `m` are pushed (and stay pushed), and no
name listed after `m` is pushed. -/
theorem export_list_missing_name_raises_attribute_error
    (mdict env : List (String × PyVal)) (pre post : List String) (m : String)
    (hall : lookupD mdict "__all__" = some (PyVal.strList (pre ++ m :: post)))
    (hpre : ∀ k ∈ pre, k ∈ dictKeys mdict) (hm : m ∉ dictKeys mdict) :
    (importAll mdict env).2.2 = some (PyError.attributeError (attrMsg m)) ∧
    (importAll mdict env).2.1 = pre := by
  have hmem : "__all__" ∈ dictKeys mdict := mem_dictKeys_of_lookupD hall
  have hkeys : exportKeys mdict = pre ++ m :: post := by
    unfold exportKeys
    rw [if_pos hmem, hall]
  have h := pushKeys_stops mdict pre m post env hpre hm
  have h1 : (importAll mdict env).2.1 = (pushKeys mdict (pre ++ m :: post) env).2.1 := by
    unfold importAll
    rw [hkeys]
  have h2 : (importAll mdict env).2.2 = (pushKeys mdict (pre ++ m :: post) env).2.2 := by
    unfold importAll
    rw [hkeys]
  exact ⟨by rw [h2, h.2], by rw [h1, h.1]⟩

/-- Claim C2 counterexample: for the concrete module dictionary
`{"a": 1, "__all__": ["a", "b"]}` the missing name `"b"` produces an
`AttributeError`, not the `NameError` the claim states. -/
theorem export_list_missing_name_not_name_error :
    (importAll [("a", PyVal.intVal 1), ("__all__", PyVal.strList ["a", "b"])]
      []).2.2 = some (PyError.attributeError (attrMsg "b")) ∧
    isNameError (importAll [("a", PyVal.intVal 1),
      ("__all__", PyVal.strList ["a", "b"])] []).2.2 = false := by
  decide

/-- Witness for `export_list_missing_name_raises_attribute_error` at the
module dictionary `{"x": 1, "y": 2, "__all__": ["x", "gone", "y"]}`. -/
theorem export_list_missing_name_witness :
    (importAll [("x", PyVal.intVal 1), ("y", PyVal.intVal 2),
      ("__all__", PyVal.strList ["x", "gone", "y"])] []).2.2 =
      some (PyError.attributeError (attrMsg "gone")) ∧
    (importAll [("x", PyVal.intVal 1), ("y", PyVal.intVal 2),
      ("__all__", PyVal.strList ["x", "gone", "y"])] []).2.1 = ["x"] :=
  export_list_missing_name_raises_attribute_error
    [("x", PyVal.intVal 1), ("y", PyVal.intVal 2),
      ("__all__", PyVal.strList ["x", "gone", "y"])]
    [] ["x"] ["y"] "gone" (by decide) (by decide) (by decide)

/-- Claim C8 (confirmed): without an `__all__` list, `_import_all` pushes
exactly the module's top-level names that do not begin with an underscore,
in iteration order, with no error; underscore-prefixed names are never
pushed. -/
theorem default_export_nonunderscore (mdict env : List (String × PyVal))
    (hall : "__all__" ∉ dictKeys mdict) :
    (importAll mdict env).2.1 =
      (dictKeys mdict).filter (fun k => !startsWithUnderscore k) ∧
    (importAll mdict env).2.2 = none ∧
    ∀ k, startsWithUnderscore k = true → k ∉ (importAll mdict env).2.1 := by
  have hkeys : exportKeys mdict =
      (dictKeys mdict).filter (fun k => !startsWithUnderscore k) := by
    unfold exportKeys
    rw [if_neg hall]
  have hsub : ∀ k ∈ exportKeys mdict, k ∈ dictKeys mdict := by
    intro k hk
    rw [hkeys] at hk
    exact (List.mem_filter.mp hk).1
  have h := pushKeys_all_present mdict (exportKeys mdict) env hsub
  have h1 : (importAll mdict env).2.1 = exportKeys mdict := h.1
  refine ⟨by rw [h1, hkeys], h.2, ?_⟩
  intro k hk hmem
  rw [h1, hkeys] at hmem
  have := (List.mem_filter.mp hmem).2
  simp [hk] at this

/-- Witness for `default_export_nonunderscore` at the module dictionary
`{"f": obj, "_h": obj, "g": obj, "__doc__": obj}`. -/
theorem default_export_witness :
    (importAll [("f", PyVal.obj "f"), ("_h", PyVal.obj "h"),
      ("g", PyVal.obj "g"), ("__doc__", PyVal.obj "d")] []).2.1 = ["f", "g"] ∧
    (importAll [("f", PyVal.obj "f"), ("_h", PyVal.obj "h"),
      ("g", PyVal.obj "g"), ("__doc__", PyVal.obj "d")] []).2.2 = none := by
  have h := default_export_nonunderscore
    [("f", PyVal.obj "f"), ("_h", PyVal.obj "h"),
      ("g", PyVal.obj "g"), ("__doc__", PyVal.obj "d")] [] (by decide)
  exact ⟨by rw [h.1]; decide, h.2.1⟩

/-- Claim C5 (confirmed): when the cell does not already end in the newline
terminator, keying the cell and keying the cell with one trailing newline
appended produce the same `BuildKey` (the normalization
`cell if cell.endswith("\n") else cell + "\n"` makes both hash the same
text), with flags and interpreter identifiers held fixed and no force
salt. -/
theorem fingerprint_trailing_newline_invariant (inv : Invocation) (now : Nat)
    (h : endsWithNewline inv.cell = false) (_hf : inv.force = false) :
    mkBuildKey inv now = mkBuildKey { inv with cell := inv.cell ++ "\n" } now := by
  unfold mkBuildKey normalizeCell
  simp only [h, endsWithNewline_append_newline, Bool.false_eq_true, if_false, if_true]

/-- Witness for `fingerprint_trailing_newline_invariant` on a cell with no
trailing newline. -/
theorem fingerprint_trailing_newline_witness :
    endsWithNewline "def f(n: int) -> int:\n    return n" = false ∧
    mkBuildKey
      { cell := "def f(n: int) -> int:\n    return n", line := "", force := false
        quiet := true, versionInfo := "v38", executable := "py"
        mypyVersion := "0.782", libDir := "/cache/mypyc", soExt := ".so" } 7 =
    mkBuildKey
      { cell := "def f(n: int) -> int:\n    return n" ++ "\n", line := ""
        force := false, quiet := true, versionInfo := "v38", executable := "py"
        mypyVersion := "0.782", libDir := "/cache/mypyc", soExt := ".so" } 7 :=
  ⟨by decide,
    fingerprint_trailing_newline_invariant
      { cell := "def f(n: int) -> int:\n    return n", line := "", force := false
        quiet := true, versionInfo := "v38", executable := "py"
        mypyVersion := "0.782", libDir := "/cache/mypyc", soExt := ".so" } 7
      (by decide) rfl⟩

/-- Claim C6 (confirmed): the key derivation is a pure function of the
normalized cell, the option line, the interpreter identifiers and the
toolchain version: two non-forced invocations agreeing on those (and on the
cache directory and platform suffix for the path) derive the same
`BuildKey`, module name and canonical artifact path, whatever their clock
readings or other circumstances. -/
theorem fingerprint_pure_function (i1 i2 : Invocation) (n1 n2 : Nat)
    (hcell : normalizeCell i1.cell = normalizeCell i2.cell)
    (hline : i1.line = i2.line) (hvi : i1.versionInfo = i2.versionInfo)
    (hexe : i1.executable = i2.executable)
    (hmv : i1.mypyVersion = i2.mypyVersion)
    (hf1 : i1.force = false) (hf2 : i2.force = false)
    (hdir : i1.libDir = i2.libDir) (hso : i1.soExt = i2.soExt) :
    mkBuildKey i1 n1 = mkBuildKey i2 n2 ∧
    moduleNameOf (mkBuildKey i1 n1) = moduleNameOf (mkBuildKey i2 n2) ∧
    modulePathOf i1 (mkBuildKey i1 n1) = modulePathOf i2 (mkBuildKey i2 n2) := by
  have hk : mkBuildKey i1 n1 = mkBuildKey i2 n2 := by
    unfold mkBuildKey
    rw [hcell, hline, hvi, hexe, hmv, hf1, hf2]
    simp
  refine ⟨hk, by rw [hk], ?_⟩
  unfold modulePathOf
  rw [hk, hdir, hso]

/-- Witness for `fingerprint_pure_function`: two invocations differing only
in clock reading and verbosity derive identical key, name and path. -/
theorem fingerprint_pure_function_witness :
    mkBuildKey
      { cell := "x = 1", line := "", force := false, quiet := true
        versionInfo := "v38", executable := "py", mypyVersion := "0.782"
        libDir := "/cache/mypyc", soExt := ".so" } 3 =
    mkBuildKey
      { cell := "x = 1", line := "", force := false, quiet := false
        versionInfo := "v38", executable := "py", mypyVersion := "0.782"
        libDir := "/cache/mypyc", soExt := ".so" } 9 ∧
    modulePathOf
      { cell := "x = 1", line := "", force := false, quiet := true
        versionInfo := "v38", executable := "py", mypyVersion := "0.782"
        libDir := "/cache/mypyc", soExt := ".so" }
      (mkBuildKey
        { cell := "x = 1", line := "", force := false, quiet := true
          versionInfo := "v38", executable := "py", mypyVersion := "0.782"
          libDir := "/cache/mypyc", soExt := ".so" } 3) =
    modulePathOf
      { cell := "x = 1", line := "", force := false, quiet := false
        versionInfo := "v38", executable := "py", mypyVersion := "0.782"
        libDir := "/cache/mypyc", soExt := ".so" }
      (mkBuildKey
        { cell := "x = 1", line := "", force := false, quiet := false
          versionInfo := "v38", executable := "py", mypyVersion := "0.782"
          libDir := "/cache/mypyc", soExt := ".so" } 9) := by
  have h := fingerprint_pure_function
    { cell := "x = 1", line := "", force := false, quiet := true
      versionInfo := "v38", executable := "py", mypyVersion := "0.782"
      libDir := "/cache/mypyc", soExt := ".so" }
    { cell := "x = 1", line := "", force := false, quiet := false
      versionInfo := "v38", executable := "py", mypyVersion := "0.782"
      libDir := "/cache/mypyc", soExt := ".so" }
    3 9 rfl rfl rfl rfl rfl rfl rfl rfl rfl
  exact ⟨h.1, h.2.2⟩

/-- Concrete invocation, world and session for the cache-hit scenario. -/
def c1Inv : Invocation :=
  { cell := "x = 1", line := "", force := false, quiet := true
    versionInfo := "v38", executable := "py", mypyVersion := "0.782"
    libDir := "/cache/mypyc", soExt := ".so" }

/-- First run's world for the cache-hit scenario: compile and build succeed. -/
def c1WorldA : World :=
  { now := 3, compileResult := some ["ext"], buildFails := false
    loadFails := false, moduleDict := [("f", PyVal.obj "f")] }

/-- Second run's world: a later clock reading; compiler result irrelevant. -/
def c1WorldB : World :=
  { now := 9, compileResult := some ["ext"], buildFails := false
    loadFails := false, moduleDict := [("f", PyVal.obj "f")] }

/-- Session whose cache directory already holds the canonical artifact. -/
def c1State : SessionState :=
  { fs := [modulePathOf c1Inv (mkBuildKey c1Inv 3)], codeCache := [], env := [] }

/-- Claim C1 counterexample: on a cache hit with `force=false` the compiler
is indeed not invoked, but the build driver (`_build_extension`) is still
invoked, with `extension = None`, contradicting "neither the compiler
(mypycify) nor the build driver is invoked". -/
theorem cache_hit_build_driver_still_invoked :
    c1Inv.force = false ∧
    modulePathOf c1Inv (mkBuildKey c1Inv c1WorldA.now) ∈ c1State.fs ∧
    Event.buildExt false ∈ (runMypyc c1Inv c1WorldA c1State).events := by
  have hm : modulePathOf c1Inv (mkBuildKey c1Inv c1WorldA.now) ∈ c1State.fs :=
    List.Mem.head _
  refine ⟨rfl, hm, ?_⟩
  rw [runMypyc_hit c1Inv c1WorldA c1State hm]
  obtain ⟨tl, htl, _⟩ :=
    finishLoad_events c1WorldA c1State
      (modulePathOf c1Inv (mkBuildKey c1Inv c1WorldA.now)) [Event.buildExt false]
  rw [htl]
  simp

/-- Claim C1 (corrected): after a successful non-forced build, a second
invocation with the same cell, flags and interpreter identifiers is a
cache hit: the compiler (`mypycify`) is never invoked and no source file is
written, but the build driver is still invoked — with no extension, so it
performs no compile or link work — the cache directory is unchanged, and
when the load and the publishes succeed the run completes (`Done`) with the
pre-existing artifact. -/
theorem cache_hit_compiler_skipped_build_driver_noop
    (inv : Invocation) (w1 w2 : World) (st : SessionState) (e1 : String)
    (hforce : inv.force = false)
    (hc1 : w1.compileResult = some [e1]) (hb1 : w1.buildFails = false) :
    (∀ p, Event.mypycify p ∉ (runMypyc inv w2 (runMypyc inv w1 st).state).events) ∧
    (∀ p, Event.writeSource p ∉ (runMypyc inv w2 (runMypyc inv w1 st).state).events) ∧
    Event.buildExt false ∈ (runMypyc inv w2 (runMypyc inv w1 st).state).events ∧
    (runMypyc inv w2 (runMypyc inv w1 st).state).state.fs =
      (runMypyc inv w1 st).state.fs ∧
    (w2.loadFails = false →
      (importAll w2.moduleDict (runMypyc inv w1 st).state.env).2.2 = none →
      (runMypyc inv w2 (runMypyc inv w1 st).state).outcome = Outcome.done) := by
  have hkey : mkBuildKey inv w2.now = mkBuildKey inv w1.now :=
    mkBuildKey_force_false inv hforce _ _
  have hpresent : modulePathOf inv (mkBuildKey inv w2.now) ∈
      (runMypyc inv w1 st).state.fs := by
    rw [hkey]
    exact runMypyc_success_artifact inv w1 st [e1] hc1 rfl hb1
  rw [runMypyc_hit inv w2 _ hpresent]
  obtain ⟨tl, htl, hshape⟩ :=
    finishLoad_events w2 (runMypyc inv w1 st).state
      (modulePathOf inv (mkBuildKey inv w2.now)) [Event.buildExt false]
  refine ⟨?_, ?_, ?_, finishLoad_fs _ _ _ _, ?_⟩
  · intro p hp
    rw [htl] at hp
    rcases List.mem_append.mp hp with h | h
    · simp at h
    · rcases List.mem_cons.mp h with h | h
      · simp at h
      · obtain ⟨n, hn⟩ := hshape _ h
        simp at hn
  · intro p hp
    rw [htl] at hp
    rcases List.mem_append.mp hp with h | h
    · simp at h
    · rcases List.mem_cons.mp h with h | h
      · simp at h
      · obtain ⟨n, hn⟩ := hshape _ h
        simp at hn
  · rw [htl]
    simp
  · intro hl herr
    exact finishLoad_outcome_done w2 _ _ _ hl herr

/-- Witness for `cache_hit_compiler_skipped_build_driver_noop`: a fresh
session builds `c1Inv` once, and the second invocation at a later clock
reading skips the compiler while still calling the build driver. -/
theorem cache_hit_compiler_skipped_witness :
    (∀ p, Event.mypycify p ∉
      (runMypyc c1Inv c1WorldB
        (runMypyc c1Inv c1WorldA
          { fs := [], codeCache := [], env := [] }).state).events) ∧
    Event.buildExt false ∈
      (runMypyc c1Inv c1WorldB
        (runMypyc c1Inv c1WorldA
          { fs := [], codeCache := [], env := [] }).state).events := by
  have h := cache_hit_compiler_skipped_build_driver_noop c1Inv c1WorldA c1WorldB
    { fs := [], codeCache := [], env := [] } "ext" rfl rfl rfl
  exact ⟨h.1, h.2.2.1⟩

/-- Concrete invocation for the failure/environment scenario. -/
def c3Inv : Invocation :=
  { cell := "a = 1", line := "", force := false, quiet := true
    versionInfo := "v38", executable := "py", mypyVersion := "0.782"
    libDir := "/cache/mypyc", soExt := ".so" }

/-- World whose loaded module lists a name in `__all__` that the build did
not produce. -/
def c3World : World :=
  { now := 0, compileResult := some ["ext"], buildFails := false
    loadFails := false
    moduleDict := [("a", PyVal.intVal 1), ("__all__", PyVal.strList ["a", "b"])] }

/-- Session holding the canonical artifact for `c3Inv` and an empty user
namespace. -/
def c3State : SessionState :=
  { fs := [modulePathOf c3Inv (mkBuildKey c3Inv 0)], codeCache := [], env := [] }

/-- Claim C3 counterexample: an invocation that fails (with the publish-time
`AttributeError` for the missing name `"b"`) nevertheless mutates the
caller's environment: the binding `"a"` published before the failure stays,
although the initial environment was empty. -/
theorem publish_failure_mutates_env :
    (runMypyc c3Inv c3World c3State).outcome =
      Outcome.raised (PyError.attributeError (attrMsg "b")) ∧
    (runMypyc c3Inv c3World c3State).state.env = [("a", PyVal.intVal 1)] ∧
    c3State.env = [] := by
  have hm : modulePathOf c3Inv (mkBuildKey c3Inv c3World.now) ∈ c3State.fs :=
    List.Mem.head _
  rw [runMypyc_hit c3Inv c3World c3State hm]
  refine ⟨by decide, by decide, rfl⟩

/-- Claim C3 (corrected): an invocation that fails with a compile error, a
build error, the single-extension assertion, or a load error leaves the
caller's environment untouched; only the publish-time `AttributeError`
escapes this rule, leaving the names pushed before the missing one in
place (partial publish, not rolled back). -/
theorem failed_invocation_env_untouched_except_publish
    (inv : Invocation) (w : World) (st : SessionState)
    (h : (runMypyc inv w st).outcome = Outcome.compileFailed ∨
      (runMypyc inv w st).outcome = Outcome.buildFailed ∨
      (runMypyc inv w st).outcome = Outcome.raised PyError.assertionError ∨
      (runMypyc inv w st).outcome = Outcome.raised PyError.importError) :
    (runMypyc inv w st).state.env = st.env := by
  by_cases hm : modulePathOf inv (mkBuildKey inv w.now) ∈ st.fs
  · rw [runMypyc_hit inv w st hm] at h ⊢
    exact finishLoad_env_untouched _ _ _ _ (by tauto)
  · cases hc : w.compileResult with
    | none =>
      rw [runMypyc_miss_compileFailed inv w st hm hc]
    | some exts =>
      by_cases hlen : exts.length = 1
      · cases hb : w.buildFails with
        | true =>
          rw [runMypyc_miss_buildFailed inv w st exts hm hc hlen hb]
        | false =>
          rw [runMypyc_miss_built inv w st exts hm hc hlen hb] at h ⊢
          exact finishLoad_env_untouched _ _ _ _ (by tauto)
      · rw [runMypyc_miss_assert inv w st exts hm hc hlen]

/-- Witness for `failed_invocation_env_untouched_except_publish`: a compile
failure on a fresh session leaves the environment unchanged. -/
theorem failed_invocation_env_witness :
    (runMypyc c3Inv
      { now := 0, compileResult := none, buildFails := false
        loadFails := false, moduleDict := [] }
      { fs := [], codeCache := [], env := [("keep", PyVal.intVal 9)] }).outcome =
      Outcome.compileFailed ∧
    (runMypyc c3Inv
      { now := 0, compileResult := none, buildFails := false
        loadFails := false, moduleDict := [] }
      { fs := [], codeCache := [], env := [("keep", PyVal.intVal 9)] }).state.env =
      [("keep", PyVal.intVal 9)] := by
  have hout : (runMypyc c3Inv
      { now := 0, compileResult := none, buildFails := false
        loadFails := false, moduleDict := [] }
      { fs := [], codeCache := [], env := [("keep", PyVal.intVal 9)] }).outcome =
      Outcome.compileFailed := by
    rw [runMypyc_miss_compileFailed c3Inv _ _ (by simp) rfl]
  exact ⟨hout,
    failed_invocation_env_untouched_except_publish c3Inv _ _ (Or.inl hout)⟩

/-- Concrete forced invocation for the salt scenario. -/
def c4Inv : Invocation :=
  { cell := "x = 1", line := "-f", force := true, quiet := true
    versionInfo := "v38", executable := "py", mypyVersion := "0.782"
    libDir := "/cache/mypyc", soExt := ".so" }

/-- Claim C4 counterexample: the force salt is nothing but the ambient
clock reading (`time.time()`); two forced invocations that observe the
same reading (`42`) derive the same `BuildKey` and the same canonical
artifact path, so the salt is not intrinsically fresh or unique and the
claim's unconditional distinctness fails. -/
theorem forced_rebuild_same_clock_same_key :
    c4Inv.force = true ∧
    mkBuildKey c4Inv 42 = mkBuildKey c4Inv 42 ∧
    (mkBuildKey c4Inv 42).salt = some 42 ∧
    modulePathOf c4Inv (mkBuildKey c4Inv 42) =
      modulePathOf c4Inv (mkBuildKey c4Inv 42) :=
  ⟨rfl, rfl, mkBuildKey_force_salt c4Inv rfl 42, rfl⟩

/-- Claim C4 (corrected): two forced invocations whose clock readings
differ derive distinct `BuildKey`s; their canonical artifact paths differ
exactly when the derived module names (SHA-1 digests of the key strings)
differ; and after both runs build successfully, both canonical artifact
files are present on disk — the pipeline never deletes a file. -/
theorem forced_rebuild_distinct_keys_and_files_kept
    (inv : Invocation) (w1 w2 : World) (st : SessionState) (e1 e2 : String)
    (hforce : inv.force = true) (hne : w1.now ≠ w2.now)
    (hc1 : w1.compileResult = some [e1]) (hb1 : w1.buildFails = false)
    (hc2 : w2.compileResult = some [e2]) (hb2 : w2.buildFails = false) :
    mkBuildKey inv w1.now ≠ mkBuildKey inv w2.now ∧
    (modulePathOf inv (mkBuildKey inv w1.now) =
        modulePathOf inv (mkBuildKey inv w2.now) ↔
      moduleNameOf (mkBuildKey inv w1.now) = moduleNameOf (mkBuildKey inv w2.now)) ∧
    modulePathOf inv (mkBuildKey inv w1.now) ∈
      (runMypyc inv w2 (runMypyc inv w1 st).state).state.fs ∧
    modulePathOf inv (mkBuildKey inv w2.now) ∈
      (runMypyc inv w2 (runMypyc inv w1 st).state).state.fs := by
  refine ⟨?_, ?_, ?_, ?_⟩
  · intro h
    have h1 := mkBuildKey_force_salt inv hforce w1.now
    have h2 := mkBuildKey_force_salt inv hforce w2.now
    rw [h, h2] at h1
    exact hne (Option.some.inj h1).symm
  · constructor
    · intro h
      unfold modulePathOf at h
      exact string_append_left_cancel (string_append_right_cancel h)
    · intro h
      unfold modulePathOf
      rw [h]
  · exact runMypyc_fs_mono inv w2 _ _
      (runMypyc_success_artifact inv w1 st [e1] hc1 rfl hb1)
  · exact runMypyc_success_artifact inv w2 _ [e2] hc2 rfl hb2

/-- Witness for `forced_rebuild_distinct_keys_and_files_kept` at clock
readings 0 and 1 on a fresh session. -/
theorem forced_rebuild_witness :
    mkBuildKey c4Inv 0 ≠ mkBuildKey c4Inv 1 ∧
    modulePathOf c4Inv (mkBuildKey c4Inv 0) ∈
      (runMypyc c4Inv
        { now := 1, compileResult := some ["e2"], buildFails := false
          loadFails := false, moduleDict := [] }
        (runMypyc c4Inv
          { now := 0, compileResult := some ["e1"], buildFails := false
            loadFails := false, moduleDict := [] }
          { fs := [], codeCache := [], env := [] }).state).state.fs ∧
    modulePathOf c4Inv (mkBuildKey c4Inv 1) ∈
      (runMypyc c4Inv
        { now := 1, compileResult := some ["e2"], buildFails := false
          loadFails := false, moduleDict := [] }
        (runMypyc c4Inv
          { now := 0, compileResult := some ["e1"], buildFails := false
            loadFails := false, moduleDict := [] }
          { fs := [], codeCache := [], env := [] }).state).state.fs := by
  have h := forced_rebuild_distinct_keys_and_files_kept c4Inv
    { now := 0, compileResult := some ["e1"], buildFails := false
      loadFails := false, moduleDict := [] }
    { now := 1, compileResult := some ["e2"], buildFails := false
      loadFails := false, moduleDict := [] }
    { fs := [], codeCache := [], env := [] } "e1" "e2"
    rfl (by decide) rfl rfl rfl rfl
  exact ⟨h.1, h.2.2.1, h.2.2.2⟩

theorem finishLoad_env_congr (w : World) (st1 st2 : SessionState) (p : String)
    (evs : List Event) (henv : st1.env = st2.env) :
    (finishLoad w st1 p evs).state.env = (finishLoad w st2 p evs).state.env := by
  unfold finishLoad
  rw [henv]
  by_cases hl : w.loadFails = true
  · simp [hl, henv]
  · cases herr : (importAll w.moduleDict st2.env).2.2 <;> simp [hl, herr]

theorem finishLoad_outcome_congr (w : World) (st1 st2 : SessionState)
    (p : String) (evs : List Event) (henv : st1.env = st2.env) :
    (finishLoad w st1 p evs).outcome = (finishLoad w st2 p evs).outcome := by
  unfold finishLoad
  rw [henv]
  by_cases hl : w.loadFails = true
  · simp [hl]
  · cases herr : (importAll w.moduleDict st2.env).2.2 <;> simp [hl, herr]

theorem finishLoad_events_congr (w : World) (st1 st2 : SessionState)
    (p : String) (evs : List Event) (henv : st1.env = st2.env) :
    (finishLoad w st1 p evs).events = (finishLoad w st2 p evs).events := by
  unfold finishLoad
  rw [henv]
  by_cases hl : w.loadFails = true
  · simp [hl]
  · cases herr : (importAll w.moduleDict st2.env).2.2 <;> simp [hl, herr]

/-- Claim C7 (corrected): the in-memory `_code_cache` mapping is written on
each fresh build but never consulted: every observable aspect of an
invocation — resulting files, resulting environment, outcome and event
trace — is independent of the mapping's contents.  The short-circuit that
skips redundant work is solely the on-disk artifact-file existence check. -/
theorem code_cache_never_consulted (inv : Invocation) (w : World)
    (fs : List String) (cc1 cc2 : List (BuildKey × String))
    (env : List (String × PyVal)) :
    (runMypyc inv w ⟨fs, cc1, env⟩).state.fs =
      (runMypyc inv w ⟨fs, cc2, env⟩).state.fs ∧
    (runMypyc inv w ⟨fs, cc1, env⟩).state.env =
      (runMypyc inv w ⟨fs, cc2, env⟩).state.env ∧
    (runMypyc inv w ⟨fs, cc1, env⟩).outcome =
      (runMypyc inv w ⟨fs, cc2, env⟩).outcome ∧
    (runMypyc inv w ⟨fs, cc1, env⟩).events =
      (runMypyc inv w ⟨fs, cc2, env⟩).events := by
  by_cases hm : modulePathOf inv (mkBuildKey inv w.now) ∈ fs
  · rw [runMypyc_hit inv w ⟨fs, cc1, env⟩ hm, runMypyc_hit inv w ⟨fs, cc2, env⟩ hm]
    exact ⟨by rw [finishLoad_fs, finishLoad_fs],
      finishLoad_env_congr w _ _ _ _ rfl,
      finishLoad_outcome_congr w _ _ _ _ rfl,
      finishLoad_events_congr w _ _ _ _ rfl⟩
  · cases hc : w.compileResult with
    | none =>
      rw [runMypyc_miss_compileFailed inv w ⟨fs, cc1, env⟩ hm hc,
        runMypyc_miss_compileFailed inv w ⟨fs, cc2, env⟩ hm hc]
      exact ⟨rfl, rfl, rfl, rfl⟩
    | some exts =>
      by_cases hlen : exts.length = 1
      · cases hb : w.buildFails with
        | true =>
          rw [runMypyc_miss_buildFailed inv w ⟨fs, cc1, env⟩ exts hm hc hlen hb,
            runMypyc_miss_buildFailed inv w ⟨fs, cc2, env⟩ exts hm hc hlen hb]
          exact ⟨rfl, rfl, rfl, rfl⟩
        | false =>
          rw [runMypyc_miss_built inv w ⟨fs, cc1, env⟩ exts hm hc hlen hb,
            runMypyc_miss_built inv w ⟨fs, cc2, env⟩ exts hm hc hlen hb]
          exact ⟨by rw [finishLoad_fs, finishLoad_fs],
            finishLoad_env_congr w _ _ _ _ rfl,
            finishLoad_outcome_congr w _ _ _ _ rfl,
            finishLoad_events_congr w _ _ _ _ rfl⟩
      · rw [runMypyc_miss_assert inv w ⟨fs, cc1, env⟩ exts hm hc hlen,
          runMypyc_miss_assert inv w ⟨fs, cc2, env⟩ exts hm hc hlen]
        exact ⟨rfl, rfl, rfl, rfl⟩

/-- Concrete invocation for the `_code_cache` scenario. -/
def c7Inv : Invocation :=
  { cell := "x = 1", line := "", force := false, quiet := true
    versionInfo := "v38", executable := "py", mypyVersion := "0.782"
    libDir := "/cache/mypyc", soExt := ".so" }

/-- World for the `_code_cache` scenario. -/
def c7World : World :=
  { now := 0, compileResult := some ["ext"], buildFails := false
    loadFails := false, moduleDict := [] }

/-- Session whose `_code_cache` already maps the invocation's key to its
module name, but whose cache directory is empty. -/
def c7State : SessionState :=
  { fs := []
    codeCache := [(mkBuildKey c7Inv 0, moduleNameOf (mkBuildKey c7Inv 0))]
    env := [] }

/-- Claim C7 counterexample: the invocation's key is present in the
in-memory `_code_cache` mapping, yet the compiler is invoked and the source
file written all the same — presence in the mapping avoids no work, because
the mapping is never consulted; only the on-disk file check is. -/
theorem code_cache_hit_does_not_skip_work :
    (mkBuildKey c7Inv c7World.now, moduleNameOf (mkBuildKey c7Inv c7World.now)) ∈
      c7State.codeCache ∧
    Event.mypycify (pyFileOf c7Inv (mkBuildKey c7Inv c7World.now)) ∈
      (runMypyc c7Inv c7World c7State).events := by
  refine ⟨List.Mem.head _, ?_⟩
  rw [runMypyc_miss_built c7Inv c7World c7State ["ext"] (List.not_mem_nil _) rfl rfl rfl]
  obtain ⟨tl, htl, _⟩ :=
    finishLoad_events c7World _ (modulePathOf c7Inv (mkBuildKey c7Inv c7World.now))
      [Event.writeSource (pyFileOf c7Inv (mkBuildKey c7Inv c7World.now)),
        Event.mypycify (pyFileOf c7Inv (mkBuildKey c7Inv c7World.now)),
        Event.buildExt true]
  rw [htl]
  simp

/-- Claim C9 (confirmed): on a cache miss, when the compiler returns any
number of extensions other than exactly one, the orchestrator fails fast
with the `assert len(extensions) == 1` assertion: no build, load or publish
happens, and neither the environment nor `_code_cache` changes.  When the
compiler returns exactly one extension — its specified behavior — the
assertion never fires. -/
theorem single_compile_unit_assertion (inv : Invocation) (w : World)
    (st : SessionState)
    (hmiss : modulePathOf inv (mkBuildKey inv w.now) ∉ st.fs) :
    (∀ exts, w.compileResult = some exts → exts.length ≠ 1 →
      (runMypyc inv w st).outcome = Outcome.raised PyError.assertionError ∧
      (∀ b, Event.buildExt b ∉ (runMypyc inv w st).events) ∧
      (∀ p, Event.load p ∉ (runMypyc inv w st).events) ∧
      (∀ n, Event.push n ∉ (runMypyc inv w st).events) ∧
      (runMypyc inv w st).state.env = st.env ∧
      (runMypyc inv w st).state.codeCache = st.codeCache) ∧
    (∀ exts, w.compileResult = some exts → exts.length = 1 →
      (runMypyc inv w st).outcome ≠ Outcome.raised PyError.assertionError) := by
  constructor
  · intro exts hc hlen
    rw [runMypyc_miss_assert inv w st exts hmiss hc hlen]
    exact ⟨rfl, fun b hb => by simp at hb, fun p hp => by simp at hp,
      fun n hn => by simp at hn, rfl, rfl⟩
  · intro exts hc hlen
    cases hb : w.buildFails with
    | true =>
      rw [runMypyc_miss_buildFailed inv w st exts hmiss hc hlen hb]
      simp
    | false =>
      rw [runMypyc_miss_built inv w st exts hmiss hc hlen hb]
      exact finishLoad_outcome_ne_assertion _ _ _ _

/-- Concrete invocation for the assertion scenario. -/
def c9Inv : Invocation :=
  { cell := "x = 1", line := "", force := false, quiet := true
    versionInfo := "v38", executable := "py", mypyVersion := "0.782"
    libDir := "/cache/mypyc", soExt := ".so" }

/-- World whose compiler returns two extensions instead of one. -/
def c9World : World :=
  { now := 0, compileResult := some ["e1", "e2"], buildFails := false
    loadFails := false, moduleDict := [] }

/-- Witness for `single_compile_unit_assertion`: two compilation units make
the run fail fast with `AssertionError`, with no build event and no
`_code_cache` change. -/
theorem single_compile_unit_witness :
    (runMypyc c9Inv c9World
      { fs := [], codeCache := [], env := [] }).outcome =
      Outcome.raised PyError.assertionError ∧
    (runMypyc c9Inv c9World
      { fs := [], codeCache := [], env := [] }).state.codeCache = [] := by
  have h := (single_compile_unit_assertion c9Inv c9World
    { fs := [], codeCache := [], env := [] }
    (List.not_mem_nil _)).1 ["e1", "e2"] rfl (by decide)
  exact ⟨h.1, h.2.2.2.2.2⟩

/-- Claim C10 (confirmed): on a cache miss whose compilation fails, the
generated `.py` source file is written (the write event precedes the
compiler invocation in the trace), the run returns the already-reported
sentinel, the source file is present afterwards, and no artifact exists at
the canonical path. -/
theorem source_file_written_before_compile_and_kept
    (inv : Invocation) (w : World) (st : SessionState)
    (hmiss : modulePathOf inv (mkBuildKey inv w.now) ∉ st.fs)
    (hc : w.compileResult = none) (hso : inv.soExt ≠ ".py") :
    (runMypyc inv w st).events =
      [Event.writeSource (pyFileOf inv (mkBuildKey inv w.now)),
        Event.mypycify (pyFileOf inv (mkBuildKey inv w.now))] ∧
    pyFileOf inv (mkBuildKey inv w.now) ∈ (runMypyc inv w st).state.fs ∧
    (runMypyc inv w st).outcome = Outcome.compileFailed ∧
    modulePathOf inv (mkBuildKey inv w.now) ∉ (runMypyc inv w st).state.fs := by
  rw [runMypyc_miss_compileFailed inv w st hmiss hc]
  refine ⟨rfl, mem_insertFile_self _ _, rfl, ?_⟩
  intro hmem
  rcases mem_insertFile_iff.mp hmem with h | h
  · exact hmiss h
  · unfold modulePathOf pyFileOf at h
    exact hso (string_append_left_cancel h)

/-- Concrete invocation for the failing-compile scenario. -/
def c10Inv : Invocation :=
  { cell := "y = []", line := "", force := false, quiet := true
    versionInfo := "v38", executable := "py", mypyVersion := "0.782"
    libDir := "/cache/mypyc", soExt := ".so" }

/-- Witness for `source_file_written_before_compile_and_kept` on a fresh
session with a failing compile. -/
theorem source_file_witness :
    (runMypyc c10Inv
      { now := 0, compileResult := none, buildFails := false
        loadFails := false, moduleDict := [] }
      { fs := [], codeCache := [], env := [] }).events =
      [Event.writeSource (pyFileOf c10Inv (mkBuildKey c10Inv 0)),
        Event.mypycify (pyFileOf c10Inv (mkBuildKey c10Inv 0))] ∧
    pyFileOf c10Inv (mkBuildKey c10Inv 0) ∈
      (runMypyc c10Inv
        { now := 0, compileResult := none, buildFails := false
          loadFails := false, moduleDict := [] }
        { fs := [], codeCache := [], env := [] }).state.fs ∧
    modulePathOf c10Inv (mkBuildKey c10Inv 0) ∉
      (runMypyc c10Inv
        { now := 0, compileResult := none, buildFails := false
          loadFails := false, moduleDict := [] }
        { fs := [], codeCache := [], env := [] }).state.fs := by
  have h := source_file_written_before_compile_and_kept c10Inv
    { now := 0, compileResult := none, buildFails := false
      loadFails := false, moduleDict := [] }
    { fs := [], codeCache := [], env := [] }
    (List.not_mem_nil _) rfl (by decide)
  exact ⟨h.1, h.2.1, h.2.2.2⟩
